import Mathlib

/-!
Verification of the Porto Taxi real-time simulation engine (`src/app.py`).

The development shallowly embeds the core of the application:
the simulation clock (`get_simulation_time`), the polyline parser
(`parse_polyline`), the activity filter and playback sampler, and the
three live query endpoints (`live_all`, `live_driver_latest`,
`live_driver_trip`).

Modelling conventions:
* Python `datetime` values (UTC-aware) are a record of calendar fields;
  aware-datetime comparison is field-lexicographic (`dtLtB`), and
  `datetime.replace` raising `ValueError` on an out-of-range field is an
  `Option.none` outcome.
* Python `int(x)` applied to a float quotient truncates toward zero
  (`intTruncDiv`).  The float quotients in this program (`elapsed / 15`,
  microsecond fractions) are exact enough that float rounding never
  crosses an integer boundary, so exact truncating division is faithful.
* `round(x, 2)` on floats is modelled as exact rational rounding to two
  decimals with ties going to even (Python banker's rounding); GPS
  coordinates and fares are exact rationals.
* pandas DataFrames of trips are lists of `Trip` records; boolean-mask
  filtering is `List.filter` (preserving row order) and `.iloc[0]` is the
  head of the filtered list.
* An HTTP response is a returned value.  404 "no data" responses are
  explicit result constructors; a Python exception escaping a function is
  an `Option.none` outcome of that function.
-/

/-- UTC-aware `datetime` value: calendar fields only (tzinfo is always UTC). -/
structure DateTime where
  year : Int
  month : Nat
  day : Nat
  hour : Nat
  minute : Nat
  second : Nat
  microsecond : Nat
  deriving DecidableEq, Repr

/-- Gregorian leap-year test. -/
def isLeapYear (y : Int) : Bool :=
  (y % 4 == 0 && y % 100 != 0) || y % 400 == 0

/-- Number of days in a month of a given year. -/
def daysInMonth (y : Int) (m : Nat) : Nat :=
  if m = 2 then (if isLeapYear y then 29 else 28)
  else if m = 4 ∨ m = 6 ∨ m = 9 ∨ m = 11 then 30
  else 31

/-- A valid Python `datetime`: every field in its documented range. -/
def DateTime.Valid (d : DateTime) : Prop :=
  1 ≤ d.month ∧ d.month ≤ 12 ∧ 1 ≤ d.day ∧ d.day ≤ daysInMonth d.year d.month ∧
  d.hour < 24 ∧ d.minute < 60 ∧ d.second < 60 ∧ d.microsecond < 1000000

instance (d : DateTime) : Decidable d.Valid := by
  unfold DateTime.Valid; infer_instance

/-- Comparison of two UTC-aware datetimes (`a < b` in Python):
field-lexicographic order. -/
def dtLtB (a b : DateTime) : Bool :=
  if a.year ≠ b.year then decide (a.year < b.year)
  else if a.month ≠ b.month then decide (a.month < b.month)
  else if a.day ≠ b.day then decide (a.day < b.day)
  else if a.hour ≠ b.hour then decide (a.hour < b.hour)
  else if a.minute ≠ b.minute then decide (a.minute < b.minute)
  else if a.second ≠ b.second then decide (a.second < b.second)
  else decide (a.microsecond < b.microsecond)

/-- Python `int(a/b)` for integer `a` and positive integer `b`:
true division followed by truncation toward zero. -/
def intTruncDiv (a b : Int) : Int :=
  if 0 ≤ a then a / b else -((-a) / b)

/-- Whole-second difference `a - b` of two datetimes lying in the same
year and month (the only case the clock produces: the day rollback stays
inside the month). -/
def dtDiffSeconds (a b : DateTime) : Int :=
  ((a.day : Int) - (b.day : Int)) * 86400 +
  ((a.hour : Int) - (b.hour : Int)) * 3600 +
  ((a.minute : Int) - (b.minute : Int)) * 60 +
  ((a.second : Int) - (b.second : Int))

/-- Microsecond difference `a - b` of two same-month datetimes;
`(a - b).total_seconds()` equals this value divided by 10^6. -/
def dtDiffMicros (a b : DateTime) : Int :=
  dtDiffSeconds a b * 1000000 + ((a.microsecond : Int) - (b.microsecond : Int))

/-- `int(SIMULATION_START.timestamp())` for
`SIMULATION_START = datetime(2013, 11, 26, 8, 0, 0, tzinfo=timezone.utc)`:
the epoch second of 2013-11-26 08:00:00 UTC. -/
def SIMULATION_START_EPOCH : Int := 1385452800

/-- `SIMULATION_DURATION_SECONDS = 2 * 60 * 60`. -/
def SIMULATION_DURATION_SECONDS : Int := 7200

/-- The cycle-start hour chosen from the current hour:
`(current_hour - 1) % 24` when the hour is even (Python `%` of a negative
dividend is nonnegative, so `(0 - 1) % 24 = 23`, written here on `Nat` as
`(h + 23) % 24`), the hour itself when odd. -/
def cycleStartHour (h : Nat) : Nat :=
  if h % 2 = 0 then (h + 23) % 24 else h

/-- `now.replace(hour=cycle_start_hour, minute=0, second=0, microsecond=0)`. -/
def cycleStartOf (now : DateTime) : DateTime :=
  ⟨now.year, now.month, now.day, cycleStartHour now.hour, 0, 0, 0⟩

/-- The day-rollback adjustment:
`if cycle_start > now: cycle_start = cycle_start.replace(day=cycle_start.day - 1)`.
`replace(day=0)` raises `ValueError` (modelled `none`) when the day is 1. -/
def adjustedCycleStart (now : DateTime) : Option DateTime :=
  if dtLtB now (cycleStartOf now) then
    if (cycleStartOf now).day = 1 then none
    else some ⟨(cycleStartOf now).year, (cycleStartOf now).month, (cycleStartOf now).day - 1,
               (cycleStartOf now).hour, (cycleStartOf now).minute, (cycleStartOf now).second,
               (cycleStartOf now).microsecond⟩
  else some (cycleStartOf now)

/-- `get_simulation_time()` as a function of the sampled wall clock `now`:
returns `(simulation_timestamp, seconds_into_cycle)`, or `none` when the
Python code raises.  `seconds_into_cycle = int((now - cycle_start).total_seconds())`. -/
def get_simulation_time (now : DateTime) : Option (Int × Int) :=
  (adjustedCycleStart now).map fun cs =>
    let seconds_into_cycle := intTruncDiv (dtDiffMicros now cs) 1000000
    (SIMULATION_START_EPOCH + seconds_into_cycle, seconds_into_cycle)

/-- Closed form for `seconds_into_cycle` on inputs where the clock does
not raise: seconds since the most recent odd clock hour. -/
def cycle_seconds (now : DateTime) : Int :=
  (if now.hour % 2 = 1 then 0 else 3600) + (now.minute : Int) * 60 + (now.second : Int)

theorem dtLtB_cycleStart (now : DateTime) (hh : now.hour < 24) :
    dtLtB now (cycleStartOf now) = (now.hour == 0) := by
  unfold dtLtB cycleStartOf cycleStartHour
  simp only [ne_eq, not_true_eq_false, if_false, if_neg (fun h : ¬ (_ = _) => h rfl)]
  simp only [Nat.not_lt_zero, decide_eq_false, ite_self]
  by_cases h0 : now.hour = 0
  · simp [h0]
  · have hb : (now.hour == 0) = false := by simp [h0]
    rw [hb]
    by_cases hpar : now.hour % 2 = 0
    · rw [if_pos hpar, if_pos (show ¬ now.hour = (now.hour + 23) % 24 by omega)]
      simp only [decide_eq_false_iff_not]
      omega
    · rw [if_neg hpar, if_neg (show ¬ ¬ now.hour = now.hour by simp)]
      rfl

/-- On every valid wall-clock instant except hour 0 of the first day of a
month, the clock succeeds and returns `cycle_seconds` (the seconds since
the most recent odd hour). -/
theorem get_simulation_time_some (now : DateTime) (hv : now.Valid)
    (h : now.hour ≠ 0 ∨ 2 ≤ now.day) :
    get_simulation_time now =
      some (SIMULATION_START_EPOCH + cycle_seconds now, cycle_seconds now) := by
  obtain ⟨_, _, hd1, _, hh, hmin, hsec, hmu⟩ := hv
  unfold get_simulation_time adjustedCycleStart
  rw [dtLtB_cycleStart now hh]
  by_cases h0 : now.hour = 0
  · have hd2 : 2 ≤ now.day := by tauto
    rw [show (now.hour == 0) = true by simp [h0], if_pos rfl]
    rw [if_neg (show ¬ (cycleStartOf now).day = 1 by simp [cycleStartOf]; omega)]
    simp only [Option.map_some']
    have key : intTruncDiv (dtDiffMicros now
        ⟨(cycleStartOf now).year, (cycleStartOf now).month, (cycleStartOf now).day - 1,
         (cycleStartOf now).hour, (cycleStartOf now).minute, (cycleStartOf now).second,
         (cycleStartOf now).microsecond⟩) 1000000 = cycle_seconds now := by
      unfold dtDiffMicros dtDiffSeconds cycleStartOf cycleStartHour cycle_seconds intTruncDiv
      dsimp only
      rw [if_pos (show now.hour % 2 = 0 by omega)]
      rw [if_neg (show ¬ now.hour % 2 = 1 by omega)]
      rw [if_pos (by simp only [h0]; omega)]
      simp only [h0]
      omega
    rw [key]
  · rw [show (now.hour == 0) = false by simp [h0]]
    simp only [Bool.false_eq_true, if_false, Option.map_some']
    have key : intTruncDiv (dtDiffMicros now (cycleStartOf now)) 1000000
        = cycle_seconds now := by
      unfold dtDiffMicros dtDiffSeconds cycleStartOf cycleStartHour cycle_seconds intTruncDiv
      dsimp only
      by_cases hpar : now.hour % 2 = 1
      · rw [if_neg (show ¬ now.hour % 2 = 0 by omega), if_pos hpar]
        rw [if_pos (by omega)]
        omega
      · rw [if_pos (show now.hour % 2 = 0 by omega), if_neg hpar]
        rw [if_pos (by omega)]
        omega
    rw [key]

/-- At hour 0 of the first day of a month the day rollback computes
`replace(day=0)`, which raises `ValueError`: the clock fails. -/
theorem get_simulation_time_none (now : DateTime) (hh : now.hour = 0)
    (hd : now.day = 1) :
    get_simulation_time now = none := by
  unfold get_simulation_time adjustedCycleStart
  rw [dtLtB_cycleStart now (by omega)]
  rw [show (now.hour == 0) = true by simp [hh], if_pos rfl]
  rw [if_pos (show (cycleStartOf now).day = 1 by simp [cycleStartOf, hd])]
  rfl

/-- A GPS coordinate pair (floats modelled as exact rationals). -/
abbrev Coord := ℚ × ℚ

/-- The raw `POLYLINE` field of a trip row: either a JSON string that
parses to a coordinate list, or a string `json.loads` rejects. -/
inductive RawPolyline where
  | parsable (coords : List Coord)
  | malformed
  deriving DecidableEq, Repr

/-- `parse_polyline`: `json.loads` the string, and on any exception
return the empty list. -/
def parse_polyline : RawPolyline → List Coord
  | .parsable coords => coords
  | .malformed => []

/-- One row of `trips_df`.  Descriptive attributes are nullable
passthrough payload (`None`/NaN is `Option.none`). -/
structure Trip where
  taxiId : Int
  tripId : Int
  timestamp : Int
  durationSec : Int
  polyline : RawPolyline
  callType : Option String
  passengers : Option Int
  fare : Option ℚ
  payment : Option String
  purpose : Option String
  fuelType : Option String
  deriving DecidableEq, Repr

/-- The activity test used by every live endpoint:
`TIMESTAMP <= sim_timestamp` and `TIMESTAMP + duration_sec > sim_timestamp`. -/
def isActive (trip : Trip) (simTs : Int) : Bool :=
  decide (trip.timestamp ≤ simTs ∧ trip.timestamp + trip.durationSec > simTs)

/-- The boolean-mask filter of `live_all`: rows of `trips_df` that are
active at the simulated instant, in store order. -/
def findActive (trips : List Trip) (simTs : Int) : List Trip :=
  trips.filter (fun t => isActive t simTs)

/-- Floor of a rational, computed from its reduced fraction. -/
def ratFloor (q : ℚ) : Int := Int.ediv q.num (q.den : Int)

/-- Round a rational to the nearest integer, ties to even
(Python round-half-even). -/
def roundHalfEven (q : ℚ) : Int :=
  if q - ratFloor q < 1/2 then ratFloor q
  else if (1 : ℚ)/2 < q - ratFloor q then ratFloor q + 1
  else if ratFloor q % 2 = 0 then ratFloor q else ratFloor q + 1

/-- Python `round(x, 2)`: round to two decimal places. -/
def round2 (q : ℚ) : ℚ := (roundHalfEven (q * 100) : ℚ) / 100

/-- `progress_pct = round((elapsed / trip["duration_sec"]) * 100, 2)`. -/
def progress_pct (elapsed durationSec : Int) : ℚ :=
  round2 ((elapsed : ℚ) / (durationSec : ℚ) * 100)

/-- `points_to_show = min(int(elapsed / 15) + 1, len(polyline))`. -/
def points_to_show (elapsed : Int) (pathLen : Nat) : Int :=
  min (intTruncDiv elapsed 15 + 1) (pathLen : Int)

/-- `gps_history = polyline[:points_to_show]` (for the nonnegative slice
bounds produced by active trips). -/
def gps_history (path : List Coord) (elapsed : Int) : List Coord :=
  path.take (points_to_show elapsed path.length).toNat

/-- `current_position = polyline[points_to_show - 1] if points_to_show > 0 else None`. -/
def current_position (path : List Coord) (elapsed : Int) : Option Coord :=
  if 0 < points_to_show elapsed path.length then
    path[(points_to_show elapsed path.length).toNat - 1]?
  else none

/-- The per-trip payload `trip_data` built by `live_all` for each active
trip. -/
structure TripData where
  driverId : Int
  tripId : Int
  elapsedSeconds : Int
  totalDuration : Int
  progressPct : ℚ
  callType : Option String
  passengers : Option Int
  fare : Option ℚ
  payment : Option String
  purpose : Option String
  fuelType : Option String
  gpsHistory : List Coord
  currentPosition : Option Coord
  deriving DecidableEq, Repr

/-- The body of the `for _, trip in active_trips.iterrows()` loop of
`live_all`. -/
def mkTripData (simTs : Int) (trip : Trip) : TripData :=
  let elapsed := simTs - trip.timestamp
  let polyline := parse_polyline trip.polyline
  { driverId := trip.taxiId
    tripId := trip.tripId
    elapsedSeconds := elapsed
    totalDuration := trip.durationSec
    progressPct := progress_pct elapsed trip.durationSec
    callType := trip.callType
    passengers := trip.passengers
    fare := trip.fare
    payment := trip.payment
    purpose := trip.purpose
    fuelType := trip.fuelType
    gpsHistory := gps_history polyline elapsed
    currentPosition := current_position polyline elapsed }

/-- Outcome of `live_all` (the Trip Store is loaded, so the 503 branch is
outside this model): either the 404 "No active trips at current
simulation time" response, or the 200 payload. -/
inductive LiveAllResult where
  | noActiveTrips
  | ok (simulationTime : Int) (secondsIntoCycle : Int) (trips : List TripData)
  deriving DecidableEq, Repr

/-- `live_all` at a given simulated instant: filter the active rows,
optionally restrict to one driver, 404 on an empty selection, otherwise
build the payload rows in store order. -/
def live_all (trips : List Trip) (driverId : Option Int)
    (simTs secondsIntoCycle : Int) : LiveAllResult :=
  let activeTrips := findActive trips simTs
  let activeTrips2 : List Trip := match driverId with
    | some d => activeTrips.filter (fun t : Trip => t.taxiId == d)
    | none => activeTrips
  if activeTrips2.length = 0 then .noActiveTrips
  else .ok simTs secondsIntoCycle (activeTrips2.map (mkTripData simTs))

/-- The reduced payload returned by `live_driver_latest`. -/
structure LatestData where
  simulationTime : Int
  driverId : Int
  tripId : Int
  elapsedSeconds : Int
  totalDuration : Int
  progressPct : ℚ
  currentPosition : Option Coord
  callType : Option String
  passengers : Option Int
  fare : Option ℚ
  payment : Option String
  purpose : Option String
  deriving DecidableEq, Repr

/-- Outcome of `live_driver_latest`: the 404 "Driver has no active trip"
response or the 200 payload. -/
inductive LatestResult where
  | noActiveTrip
  | ok (data : LatestData)
  deriving DecidableEq, Repr

/-- Payload construction of `live_driver_latest` for the selected row. -/
def mkLatestData (simTs : Int) (trip : Trip) : LatestData :=
  let elapsed := simTs - trip.timestamp
  let polyline := parse_polyline trip.polyline
  { simulationTime := simTs
    driverId := trip.taxiId
    tripId := trip.tripId
    elapsedSeconds := elapsed
    totalDuration := trip.durationSec
    progressPct := progress_pct elapsed trip.durationSec
    currentPosition := current_position polyline elapsed
    callType := trip.callType
    passengers := trip.passengers
    fare := trip.fare
    payment := trip.payment
    purpose := trip.purpose }

/-- The boolean-mask filter of `live_driver_latest`: rows matching the
driver that are active at the simulated instant. -/
def activeForDriver (trips : List Trip) (driverId : Int) (simTs : Int) : List Trip :=
  trips.filter (fun t => t.taxiId == driverId && isActive t simTs)

/-- `live_driver_latest`: 404 on an empty selection, otherwise build the
payload from `active_trip.iloc[0]` — the first matching row only. -/
def live_driver_latest (trips : List Trip) (driverId : Int) (simTs : Int) :
    LatestResult :=
  match activeForDriver trips driverId simTs with
  | [] => .noActiveTrip
  | trip :: _ => .ok (mkLatestData simTs trip)

/-- Outcome of `live_driver_trip`: 404 "Trip not found for driver",
404 "Trip is not active at current simulation time", or the 200 payload
(which carries the full raw record as `trip_data`). -/
inductive TripQueryResult where
  | notFound
  | notActive
  | active (data : TripData) (tripData : Trip)
  deriving DecidableEq, Repr

/-- `live_driver_trip`: select rows matching `(TAXI_ID, TRIP_ID)`;
empty selection is not-found; otherwise check `iloc[0]` for activity and
return not-active or the full payload. -/
def live_driver_trip (trips : List Trip) (driverId tripId : Int) (simTs : Int) :
    TripQueryResult :=
  match trips.filter (fun t : Trip => t.taxiId == driverId && t.tripId == tripId) with
  | [] => .notFound
  | trip :: _ =>
    if isActive trip simTs then .active (mkTripData simTs trip) trip
    else .notActive

/-- The HTTP observation a caller makes of a `live_driver_trip` outcome:
status code and, for the 404s, the error message of the JSON body. -/
def tripQueryObservation (driverId tripId : Int) : TripQueryResult → Nat × String
  | .notFound => (404, "Trip " ++ toString tripId ++ " not found for driver " ++ toString driverId)
  | .notActive => (404, "Trip " ++ toString tripId ++ " is not active at current simulation time")
  | .active _ _ => (200, "")


/-- C1: for an active trip (elapsed ≥ 0) with a recorded path of length
`n`, the playback sampler shows `min(floor(elapsed / 15) + 1, n)`
samples; this is at least 1 when `n > 0` and never exceeds `n`; the
visible path is the prefix `path[0 : points_to_show]`; at `elapsed = 0`
it is 1 sample, at `elapsed = 44` with `n = 9` it is 3, and at
`elapsed = 1000` with `n = 9` it is all 9 with `current_position` the
last sample. -/
theorem C1_playback_visible_samples (elapsed : Int) (path : List Coord)
    (h : 0 ≤ elapsed) :
    points_to_show elapsed path.length = min (elapsed / 15 + 1) (path.length : Int)
    ∧ (0 < path.length → 1 ≤ points_to_show elapsed path.length)
    ∧ points_to_show elapsed path.length ≤ (path.length : Int)
    ∧ gps_history path elapsed = path.take (points_to_show elapsed path.length).toNat
    ∧ points_to_show 0 9 = 1
    ∧ points_to_show 44 9 = 3
    ∧ points_to_show 1000 9 = 9
    ∧ (path.length = 9 → current_position path 1000 = path.getLast?) := by
  refine ⟨?_, ?_, ?_, rfl, by decide, by decide, by decide, ?_⟩
  · simp only [points_to_show, intTruncDiv, if_pos h]
  · intro hlen
    simp only [points_to_show, intTruncDiv, if_pos h]
    have : 0 ≤ elapsed / 15 := Int.ediv_nonneg h (by norm_num)
    omega
  · simp only [points_to_show]
    omega
  · intro h9
    have hp : points_to_show 1000 path.length = 9 := by rw [h9]; decide
    unfold current_position
    rw [hp, if_pos (by norm_num)]
    rw [List.getLast?_eq_getElem?, h9]
    rfl

/-- Witness for C1 at `elapsed = 44` and a 9-sample path. -/
theorem C1_witness :
    (0 : Int) ≤ 44 ∧
      points_to_show 44 (List.replicate 9 ((0 : ℚ), (0 : ℚ))).length =
        min ((44 : Int) / 15 + 1) ((List.replicate 9 ((0 : ℚ), (0 : ℚ))).length : Int) :=
  ⟨by decide, (C1_playback_visible_samples 44 (List.replicate 9 ((0 : ℚ), (0 : ℚ)))
      (by decide)).1⟩

/-- C2: a trip is selected as active at simulated instant `t` iff
`start_timestamp ≤ t < start_timestamp + duration_seconds`; a trip with
`start_timestamp = 1000`, `duration_seconds = 120` is active exactly on
`[1000, 1120)` and inactive at 999 and 1120. -/
theorem C2_active_interval (trips : List Trip) (trip : Trip) (t : Int) :
    (trip ∈ findActive trips t ↔
      trip ∈ trips ∧ trip.timestamp ≤ t ∧ t < trip.timestamp + trip.durationSec)
    ∧ (trip.timestamp = 1000 → trip.durationSec = 120 →
        (∀ u : Int, isActive trip u = true ↔ 1000 ≤ u ∧ u < 1120)
        ∧ isActive trip 999 = false ∧ isActive trip 1120 = false) := by
  constructor
  · simp only [findActive, List.mem_filter, isActive, decide_eq_true_eq, gt_iff_lt]
  · intro h1 h2
    refine ⟨fun u => ?_, ?_, ?_⟩
    · simp only [isActive, decide_eq_true_eq, gt_iff_lt, h1, h2]
      omega
    · simp only [isActive, h1, h2]
      decide
    · simp only [isActive, h1, h2]
      decide

/-- Witness for C2: a concrete store and trip, active at 1050. -/
theorem C2_witness :
    (⟨7, 42, 1000, 120, .parsable [], none, none, none, none, none, none⟩ : Trip) ∈
        findActive [⟨7, 42, 1000, 120, .parsable [], none, none, none, none, none, none⟩] 1050 ↔
      (⟨7, 42, 1000, 120, .parsable [], none, none, none, none, none, none⟩ : Trip) ∈
          [(⟨7, 42, 1000, 120, .parsable [], none, none, none, none, none, none⟩ : Trip)] ∧
        (1000 : Int) ≤ 1050 ∧ (1050 : Int) < 1000 + 120 :=
  (C2_active_interval
    [⟨7, 42, 1000, 120, .parsable [], none, none, none, none, none, none⟩]
    ⟨7, 42, 1000, 120, .parsable [], none, none, none, none, none, none⟩ 1050).1

/-- C3: the claim asserts the simulation clock is total for every valid
UTC instant, including hour 0 of the first day of a month.  The code is
not: at such instants the day rollback computes `replace(day=0)`, which
raises `ValueError`.  Evaluated at 2013-12-01 00:30:00 UTC (a valid
instant), the clock fails instead of returning a value in `[0, 7200)`. -/
theorem C3_clock_not_total_at_month_start :
    (DateTime.Valid ⟨2013, 12, 1, 0, 30, 0, 0⟩)
    ∧ get_simulation_time ⟨2013, 12, 1, 0, 30, 0, 0⟩ = none := by
  exact ⟨by decide, get_simulation_time_none _ rfl rfl⟩

/-- Rounding an integer-valued rational returns that integer. -/
theorem roundHalfEven_intCast (n : Int) : roundHalfEven ((n : Int) : ℚ) = n := by
  unfold roundHalfEven ratFloor
  rw [Rat.num_intCast, Rat.den_intCast]
  rw [show Int.ediv n ((1 : Nat) : Int) = n by
    show n / ((1 : Nat) : Int) = n
    norm_num]
  norm_num

/-- C4: a trip selected as active never has `duration_seconds = 0` (its
activity interval would be empty), so the `progress_pct` division is
never a division by zero; the payload's `progress_pct` is
`round(elapsed / duration_seconds * 100, 2)` and equals exactly 50 for
`elapsed = 60`, `duration = 120`. -/
theorem C4_progress_division_safety (trips : List Trip) (trip : Trip) (t : Int)
    (h : trip ∈ findActive trips t) :
    trip.durationSec ≠ 0
    ∧ (mkTripData t trip).progressPct = progress_pct (t - trip.timestamp) trip.durationSec
    ∧ progress_pct 60 120 = 50 := by
  refine ⟨?_, rfl, ?_⟩
  · have h2 := (List.mem_filter.mp h).2
    simp only [isActive, decide_eq_true_eq, gt_iff_lt] at h2
    omega
  · unfold progress_pct round2
    have h1 : ((60 : Int) : ℚ) / ((120 : Int) : ℚ) * 100 * 100 = ((5000 : Int) : ℚ) := by
      norm_num
    rw [h1, roundHalfEven_intCast]
    norm_num

/-- Witness for C4: a concrete active trip. -/
theorem C4_witness :
    (⟨7, 42, 1000, 120, .parsable [], none, none, none, none, none, none⟩ : Trip).durationSec ≠ 0
    ∧ (mkTripData 1060 ⟨7, 42, 1000, 120, .parsable [], none, none, none, none, none, none⟩).progressPct
        = progress_pct ((1060 : Int) - 1000) 120
    ∧ progress_pct 60 120 = 50 :=
  C4_progress_division_safety
    [⟨7, 42, 1000, 120, .parsable [], none, none, none, none, none, none⟩]
    ⟨7, 42, 1000, 120, .parsable [], none, none, none, none, none, none⟩ 1060 (by decide)

/-- C5: the simulation clock is deterministic — two evaluations at real
times within the same calendar second (equal fields down to seconds,
microseconds free) produce identical output. -/
theorem C5_clock_deterministic (t1 t2 : DateTime) (hv1 : t1.Valid) (hv2 : t2.Valid)
    (hy : t1.year = t2.year) (hmo : t1.month = t2.month) (hd : t1.day = t2.day)
    (hh : t1.hour = t2.hour) (hmi : t1.minute = t2.minute) (hs : t1.second = t2.second) :
    get_simulation_time t1 = get_simulation_time t2 := by
  by_cases hc : t1.hour = 0 ∧ t1.day = 1
  · rw [get_simulation_time_none t1 hc.1 hc.2,
        get_simulation_time_none t2 (hh ▸ hc.1) (hd ▸ hc.2)]
  · have h1 : t1.hour ≠ 0 ∨ 2 ≤ t1.day := by
      have := hv1.2.2.1
      omega
    have h2 : t2.hour ≠ 0 ∨ 2 ≤ t2.day := by
      rcases h1 with h1 | h1
      · exact Or.inl (hh ▸ h1)
      · exact Or.inr (hd ▸ h1)
    rw [get_simulation_time_some t1 hv1 h1, get_simulation_time_some t2 hv2 h2]
    simp only [cycle_seconds, hh, hmi, hs]

/-- Witness for C5: two instants inside the second 2013-11-26 08:30:45,
with different microsecond fields. -/
theorem C5_witness :
    get_simulation_time ⟨2013, 11, 26, 8, 30, 45, 0⟩ =
      get_simulation_time ⟨2013, 11, 26, 8, 30, 45, 999999⟩ :=
  C5_clock_deterministic ⟨2013, 11, 26, 8, 30, 45, 0⟩ ⟨2013, 11, 26, 8, 30, 45, 999999⟩
    (by decide) (by decide) rfl rfl rfl rfl rfl rfl

/-- C6: a real time exactly on an odd UTC hour boundary selects that hour
itself as the cycle start (no day rollback) and yields
`seconds_into_cycle = 0`. -/
theorem C6_odd_hour_boundary (now : DateTime) (hv : now.Valid)
    (hodd : now.hour % 2 = 1) (hm : now.minute = 0) (hs : now.second = 0) :
    adjustedCycleStart now = some ⟨now.year, now.month, now.day, now.hour, 0, 0, 0⟩
    ∧ get_simulation_time now = some (SIMULATION_START_EPOCH, 0) := by
  constructor
  · unfold adjustedCycleStart
    rw [dtLtB_cycleStart now hv.2.2.2.2.1]
    rw [show (now.hour == 0) = false by simp; omega]
    simp only [Bool.false_eq_true, if_false, cycleStartOf, cycleStartHour]
    rw [if_neg (show ¬ now.hour % 2 = 0 by omega)]
  · rw [get_simulation_time_some now hv (Or.inl (by omega))]
    simp only [cycle_seconds, hm, hs]
    rw [if_pos hodd]
    norm_num

/-- Witness for C6: the odd hour boundary 2013-11-26 09:00:00 UTC. -/
theorem C6_witness :
    adjustedCycleStart ⟨2013, 11, 26, 9, 0, 0, 0⟩ = some ⟨2013, 11, 26, 9, 0, 0, 0⟩
    ∧ get_simulation_time ⟨2013, 11, 26, 9, 0, 0, 0⟩ = some (SIMULATION_START_EPOCH, 0) :=
  C6_odd_hour_boundary ⟨2013, 11, 26, 9, 0, 0, 0⟩ (by decide) rfl rfl rfl

/-- C7: an empty match is an explicit "no active trips" result value, not
a raised exception: the all-active query with zero active trips, the
driver-scoped query with an absent or inactive driver, and the
driver-latest query all return their empty-result constructor, and every
query outcome is one of the two result variants (the functions are
total). -/
theorem C7_empty_match_result (trips : List Trip) (t cy d : Int) :
    (findActive trips t = [] → live_all trips none t cy = .noActiveTrips)
    ∧ ((findActive trips t).filter (fun tr : Trip => tr.taxiId == d) = [] →
        live_all trips (some d) t cy = .noActiveTrips)
    ∧ (activeForDriver trips d t = [] → live_driver_latest trips d t = .noActiveTrip)
    ∧ (∀ r : LiveAllResult, r = .noActiveTrips ∨ ∃ s c l, r = .ok s c l) := by
  refine ⟨?_, ?_, ?_, ?_⟩
  · intro h
    simp [live_all, h]
  · intro h
    simp [live_all, h]
  · intro h
    simp [live_driver_latest, h]
  · intro r
    cases r with
    | noActiveTrips => exact Or.inl rfl
    | ok s c l => exact Or.inr ⟨s, c, l, rfl⟩

/-- Witness for C7: the empty store has no active trips. -/
theorem C7_witness : live_all [] none 0 0 = .noActiveTrips :=
  (C7_empty_match_result [] 0 0 0).1 rfl

/-- C8: the specific-trip query has exactly three outcomes — not-found
when no row matches `(driver_id, trip_id)`, not-active when the first
matching row's interval excludes the simulated instant, and the full
detail when it is active — and the caller can tell them apart from the
response alone (the two 404 bodies carry different messages, the active
case a 200). -/
theorem C8_trip_query_trichotomy (trips : List Trip) (d tid t : Int) :
    (live_driver_trip trips d tid t = .notFound ↔
      trips.filter (fun tr : Trip => tr.taxiId == d && tr.tripId == tid) = [])
    ∧ (∀ (tr : Trip) (rest : List Trip),
        trips.filter (fun tr : Trip => tr.taxiId == d && tr.tripId == tid) = tr :: rest →
          (isActive tr t = false → live_driver_trip trips d tid t = .notActive)
          ∧ (isActive tr t = true →
              live_driver_trip trips d tid t = .active (mkTripData t tr) tr))
    ∧ tripQueryObservation d tid .notFound ≠ tripQueryObservation d tid .notActive
    ∧ (∀ (data : TripData) (trd : Trip),
        tripQueryObservation d tid .notFound ≠ tripQueryObservation d tid (.active data trd)
        ∧ tripQueryObservation d tid .notActive ≠ tripQueryObservation d tid (.active data trd)) := by
  refine ⟨?_, ?_, ?_, ?_⟩
  · constructor
    · intro h
      cases hf : trips.filter (fun tr : Trip => tr.taxiId == d && tr.tripId == tid) with
      | nil => rfl
      | cons a l =>
        unfold live_driver_trip at h
        rw [hf] at h
        dsimp only at h
        by_cases ha : isActive a t = true
        · rw [if_pos ha] at h
          cases h
        · rw [if_neg ha] at h
          cases h
    · intro h
      unfold live_driver_trip
      rw [h]
  · intro tr rest hf
    constructor
    · intro hact
      unfold live_driver_trip
      rw [hf]
      dsimp only
      rw [if_neg (by simp [hact])]
    · intro hact
      unfold live_driver_trip
      rw [hf]
      dsimp only
      rw [if_pos hact]
  · intro h
    have h2 := congrArg (fun p : Nat × String => p.2) h
    simp only [tripQueryObservation] at h2
    have h3 := congrArg String.data h2
    simp only [String.data_append, List.append_assoc] at h3
    have h4 := List.append_cancel_left h3
    have h5 := List.append_cancel_left h4
    simp at h5
  · intro data trd
    constructor
    · intro h
      have h2 := congrArg (fun p : Nat × String => p.1) h
      simp [tripQueryObservation] at h2
    · intro h
      have h2 := congrArg (fun p : Nat × String => p.1) h
      simp [tripQueryObservation] at h2

/-- Witness for C8: the empty store yields not-found. -/
theorem C8_witness : live_driver_trip [] 1 2 0 = .notFound :=
  (C8_trip_query_trichotomy [] 1 2 0).1.mpr rfl

/-- C9: an unparsable polyline is treated as the empty path, never a
raised exception: the parser returns `[]` on malformed input, the active
trip's payload has `gps_history = []` and `current_position = none`, and
the all-active query still succeeds and includes that trip. -/
theorem C9_malformed_path_degrades (trips : List Trip) (trip : Trip) (t cy : Int)
    (hmem : trip ∈ trips) (hact : isActive trip t = true)
    (hpath : parse_polyline trip.polyline = []) :
    parse_polyline .malformed = []
    ∧ (mkTripData t trip).gpsHistory = []
    ∧ (mkTripData t trip).currentPosition = none
    ∧ live_all trips none t cy = .ok t cy ((findActive trips t).map (mkTripData t))
    ∧ mkTripData t trip ∈ (findActive trips t).map (mkTripData t) := by
  have hmemf : trip ∈ findActive trips t := List.mem_filter.mpr ⟨hmem, hact⟩
  refine ⟨rfl, ?_, ?_, ?_, ?_⟩
  · simp only [mkTripData, hpath, gps_history, List.take_nil]
  · have hle : points_to_show (t - trip.timestamp) ([] : List Coord).length ≤ 0 := by
      simp only [points_to_show, List.length_nil, Nat.cast_zero]
      exact min_le_right _ _
    simp only [mkTripData, hpath, current_position]
    rw [if_neg (by omega)]
  · have hne : findActive trips t ≠ [] := by
      intro h0
      rw [h0] at hmemf
      cases hmemf
    simp only [live_all]
    rw [if_neg (by simpa [List.length_eq_zero] using hne)]
  · exact List.mem_map_of_mem _ hmemf

/-- Witness for C9: an active trip whose polyline field is unparsable. -/
theorem C9_witness :
    (mkTripData 10 ⟨3, 9, 0, 100, .malformed, none, none, none, none, none, none⟩).gpsHistory = []
    ∧ (mkTripData 10 ⟨3, 9, 0, 100, .malformed, none, none, none, none, none, none⟩).currentPosition
        = none :=
  have h := C9_malformed_path_degrades
    [⟨3, 9, 0, 100, .malformed, none, none, none, none, none, none⟩]
    ⟨3, 9, 0, 100, .malformed, none, none, none, none, none, none⟩ 10 0
    (by decide) (by decide) rfl
  ⟨h.2.1, h.2.2.1⟩

/-- C10: when several trips of one driver are active at once, the
driver-latest query answers from `iloc[0]` — the first active trip in
store order — only; every other active trip is ignored, so appending
further rows to the store does not change the answer. -/
theorem C10_driver_latest_first_only (trips more : List Trip) (d t : Int)
    (tr : Trip) (rest : List Trip)
    (h : activeForDriver trips d t = tr :: rest) :
    live_driver_latest trips d t = .ok (mkLatestData t tr)
    ∧ live_driver_latest (trips ++ more) d t = live_driver_latest trips d t := by
  constructor
  · unfold live_driver_latest
    rw [h]
  · unfold live_driver_latest activeForDriver
    unfold activeForDriver at h
    rw [List.filter_append, h]
    rfl

/-- Witness for C10: two concurrently active trips of driver 1; the
answer is the first and is unchanged by the second. -/
theorem C10_witness :
    live_driver_latest
        [⟨1, 100, 0, 100, .parsable [], none, none, none, none, none, none⟩,
         ⟨1, 200, 0, 100, .parsable [], none, none, none, none, none, none⟩] 1 10 =
      .ok (mkLatestData 10 ⟨1, 100, 0, 100, .parsable [], none, none, none, none, none, none⟩) :=
  (C10_driver_latest_first_only
    [⟨1, 100, 0, 100, .parsable [], none, none, none, none, none, none⟩,
     ⟨1, 200, 0, 100, .parsable [], none, none, none, none, none, none⟩]
    [] 1 10
    ⟨1, 100, 0, 100, .parsable [], none, none, none, none, none, none⟩
    [⟨1, 200, 0, 100, .parsable [], none, none, none, none, none, none⟩]
    (by decide)).1
